import Mathlib

/- Shallow embedding of the multi-shop storefront spider
   (src/shopify_scraper/spiders/multi_shop_spider.py) and the output and
   summary conventions it implements, with theorems checking the spec. -/

/-- Python-style JSON document, as produced by json.loads. -/
inductive Json where
  | null
  | bool (b : Bool)
  | num (n : Int)
  | str (s : String)
  | arr (elems : List Json)
  | obj (fields : List (String × Json))

mutual
def Json.beq : Json → Json → Bool
  | .null, .null => true
  | .bool a, .bool b => a == b
  | .num a, .num b => a == b
  | .str a, .str b => a == b
  | .arr a, .arr b => Json.beqList a b
  | .obj a, .obj b => Json.beqFields a b
  | _, _ => false
def Json.beqList : List Json → List Json → Bool
  | [], [] => true
  | a :: as1, b :: bs1 => Json.beq a b && Json.beqList as1 bs1
  | _, _ => false
def Json.beqFields : List (String × Json) → List (String × Json) → Bool
  | [], [] => true
  | (k1, v1) :: as1, (k2, v2) :: bs1 =>
      k1 == k2 && Json.beq v1 v2 && Json.beqFields as1 bs1
  | _, _ => false
end

instance : BEq Json := ⟨Json.beq⟩

/-- Python truthiness of a JSON value. -/
def jsonTruthy : Json → Bool
  | .null => false
  | .bool b => b
  | .num n => n != 0
  | .str s => s != ""
  | .arr l => !l.isEmpty
  | .obj l => !l.isEmpty

/-- dict.get with default None (first binding wins, as in a Python dict);
    the source would raise on a non-dict receiver, which never happens on
    the inputs considered here. -/
def jget (j : Json) (key : String) : Json :=
  match j with
  | .obj fields => (fields.lookup key).getD .null
  | _ => .null

/-- dict.get with an explicit default. -/
def jgetD (j : Json) (key : String) (dflt : Json) : Json :=
  match j with
  | .obj fields => (fields.lookup key).getD dflt
  | _ => dflt

def isAsciiUpper (c : Char) : Bool := 'A' ≤ c && c ≤ 'Z'

/-- re.search of the pattern of three consecutive uppercase letters:
    leftmost match. -/
def search3upperAux : List Char → Option String
  | c1 :: c2 :: c3 :: rest =>
      if isAsciiUpper c1 && isAsciiUpper c2 && isAsciiUpper c3 then
        some (String.mk [c1, c2, c3])
      else search3upperAux (c2 :: c3 :: rest)
  | _ => none

def search3upper (s : String) : Option String := search3upperAux s.data

/-- re.match against an anchored three-uppercase-letter pattern
    (anchors modelled as an exact whole-string match). -/
def isMatch3Upper (s : String) : Bool :=
  match s.data with
  | [c1, c2, c3] => isAsciiUpper c1 && isAsciiUpper c2 && isAsciiUpper c3
  | _ => false

def isSubPrefix : List Char → List Char → Bool
  | [], _ => true
  | _ :: _, [] => false
  | p :: ps, c :: cs => p == c && isSubPrefix ps cs

def listContainsSub (pat : List Char) : List Char → Bool
  | [] => isSubPrefix pat []
  | c :: rest => isSubPrefix pat (c :: rest) || listContainsSub pat rest

/-- Python substring containment (the `in` operator on strings). -/
def strContains (hay pat : String) : Bool := listContainsSub pat.data hay.data

def pyLower (s : String) : String := String.mk (s.data.map Char.toLower)

def pyUpper (s : String) : String := String.mk (s.data.map Char.toUpper)

/-- Python character-slice s[:n]. -/
def strTake (s : String) (n : Nat) : String := String.mk (s.data.take n)

def strStartsWith (s pre : String) : Bool := isSubPrefix pre.data s.data

def strEndsWith (s suf : String) : Bool := isSubPrefix suf.data.reverse s.data.reverse

def splitOnCharAux (sep : Char) : List Char → List Char → List String
  | [], acc => [String.mk acc.reverse]
  | c :: rest, acc =>
      if c == sep then String.mk acc.reverse :: splitOnCharAux sep rest []
      else splitOnCharAux sep rest (c :: acc)

/-- Python str.split on a one-character separator. -/
def splitOnChar (s : String) (sep : Char) : List String := splitOnCharAux sep s.data []

/-- Python sep.join. -/
def joinSep (sep : String) : List String → String
  | [] => ""
  | [s] => s
  | s :: rest => s ++ sep ++ joinSep sep rest

def strLtList : List Char → List Char → Bool
  | [], [] => false
  | [], _ :: _ => true
  | _ :: _, [] => false
  | a :: as1, b :: bs1 =>
      if a.toNat < b.toNat then true
      else if b.toNat < a.toNat then false
      else strLtList as1 bs1

/-- Python string ordering (lexicographic on code points). -/
def strLt (a b : String) : Bool := strLtList a.data b.data

def isPyWs (c : Char) : Bool :=
  c == ' ' || c == '\t' || c == '\n' || c == '\r' || c == '\x0b' || c == '\x0c'

/-- Python str.strip of ASCII whitespace. -/
def pyStrip (s : String) : String :=
  String.mk ((s.data.dropWhile isPyWs).reverse.dropWhile isPyWs).reverse

def hexDigit (n : Nat) : Char :=
  if n < 10 then Char.ofNat ('0'.toNat + n) else Char.ofNat ('a'.toNat + (n - 10))

/-- json.dumps escaping of one character (ensure_ascii=True). -/
def jsonEscapeChar (c : Char) : String :=
  if c == '"' then "\\\""
  else if c == '\\' then "\\\\"
  else if c == '\n' then "\\n"
  else if c == '\t' then "\\t"
  else if c == '\r' then "\\r"
  else if c.toNat < 32 || c.toNat > 126 then
    let n := c.toNat % 65536
    String.mk ['\\', 'u', hexDigit (n / 4096), hexDigit (n / 256 % 16),
               hexDigit (n / 16 % 16), hexDigit (n % 16)]
  else String.mk [c]

def jsonEscape (s : String) : String := String.join (s.data.map jsonEscapeChar)

mutual
/-- json.dumps with the default separators. -/
def json_dumps : Json → String
  | .null => "null"
  | .bool true => "true"
  | .bool false => "false"
  | .num n => toString n
  | .str s => "\"" ++ jsonEscape s ++ "\""
  | .arr l => "[" ++ dumpsElems l ++ "]"
  | .obj fs => "\x7b" ++ dumpsFields fs ++ "\x7d"
def dumpsElems : List Json → String
  | [] => ""
  | [e] => json_dumps e
  | e :: rest => json_dumps e ++ ", " ++ dumpsElems rest
def dumpsFields : List (String × Json) → String
  | [] => ""
  | [(k, v)] => "\"" ++ jsonEscape k ++ "\": " ++ json_dumps v
  | (k, v) :: rest => "\"" ++ jsonEscape k ++ "\": " ++ json_dumps v ++ ", " ++ dumpsFields rest
end

/-- Python str() of a JSON value (container repr approximated by dumps). -/
def pyStr : Json → String
  | .str s => s
  | .null => "None"
  | .bool true => "True"
  | .bool false => "False"
  | .num n => toString n
  | j => json_dumps j

/-- The _SYMBOL_TO_CODE table, in source order. -/
def SYMBOL_TO_CODE : List (String × String) :=
  [("$", "USD"), ("€", "EUR"), ("£", "GBP"), ("₹", "INR"), ("¥", "JPY"),
   ("₽", "RUB"), ("₩", "KRW"), ("₺", "TRY"), ("R$", "BRL"), ("S$", "SGD"),
   ("₱", "PHP"), ("PKR", "PKR"), ("USD", "USD"), ("EUR", "EUR"), ("GBP", "GBP"),
   ("AUD", "AUD"), ("CAD", "CAD"), ("INR", "INR")]

/-- The _TLD_TO_CURRENCY table, in source order. -/
def TLD_TO_CURRENCY : List (String × String) :=
  [("pk", "PKR"), ("us", "USD"), ("uk", "GBP"), ("co.uk", "GBP"), ("in", "INR"),
   ("jp", "JPY"), ("au", "AUD"), ("ca", "CAD"), ("de", "EUR"), ("fr", "EUR"),
   ("it", "EUR"), ("es", "EUR"), ("nl", "EUR")]

/-- The direct key tuple scanned first in _currency_from_json_shallow. -/
def CURRENCY_KEYS : List String :=
  ["currency", "currency_code", "shop_currency", "currencyIsoCode",
   "money_format", "money_with_currency_format"]

/-- Direct-key stage of _currency_from_json_shallow: for each listed key whose
    value is a string, extract the first embedded 3-uppercase-letter token. -/
def direct_key_scan (data : Json) : Option String :=
  CURRENCY_KEYS.findSome? fun key =>
    match jget data key with
    | .str v => search3upper v
    | _ => none

mutual
/-- The nested `scan` closure of _currency_from_json_shallow (depth-bounded). -/
def scan_json : Json → Nat → Option String
  | j, depth =>
    if depth > 3 then none
    else
      match j with
      | .obj fields => scan_fields fields depth
      | .arr elems => scan_elems elems depth 10
      | _ => none
def scan_fields : List (String × Json) → Nat → Option String
  | [], _ => none
  | (k, v) :: rest, depth =>
      let kl := pyLower k
      let hit1 : Option String :=
        match v with
        | .str s =>
            if isMatch3Upper s then some s
            else if strContains kl "currency" || strContains kl "currency_code"
                    || strContains kl "money" then
              search3upper s
            else none
        | _ => none
      match hit1 with
      | some c => some c
      | none =>
          match (match v with
                 | .obj _ => scan_json v (depth + 1)
                 | .arr _ => scan_json v (depth + 1)
                 | _ => none) with
          | some c => some c
          | none => scan_fields rest depth
def scan_elems : List Json → Nat → Nat → Option String
  | [], _, _ => none
  | _ :: _, _, 0 => none
  | e :: rest, depth, n + 1 =>
      match scan_json e (depth + 1) with
      | some c => some c
      | none => scan_elems rest depth n
end

/-- _currency_from_json_shallow: direct keys, then the nested scan, then
    symbol hints inside the first 4000 characters of the dumped payload. -/
def currency_from_json_shallow (data : Json) : Option String × Option String :=
  match direct_key_scan data with
  | some code => (some code, some "json_key")
  | none =>
    match scan_json data 0 with
    | some code => (some code, some "json_nested")
    | none =>
      let text := strTake (json_dumps data) 4000
      match SYMBOL_TO_CODE.findSome?
              (fun sc => if strContains text sc.1 then some sc.2 else none) with
      | some code => (some code, some "json_symbol")
      | none => (none, none)

/-- _currency_from_price_text. -/
def currency_from_price_text (price_text : Json) : Option String :=
  if !jsonTruthy price_text then none
  else
    let text := pyStr price_text
    match search3upper text with
    | some c => some c
    | none =>
        SYMBOL_TO_CODE.findSome? fun sc =>
          if sc.1 != "" && strContains text sc.1 then some sc.2 else none

/-- Tokens of the concrete regular expressions used in _currency_from_html.
    sStar is a zero-or-more repetition of the letter s: in the first four
    source patterns the doubled backslash inside the raw string turns the
    intended whitespace class into a literal backslash followed by such a
    repetition. -/
inductive RTok where
  | lit (c : Char)
  | anyc
  | sStar
  | wsStar
  | quoteOpt
  | quoteReq
  | colonEq
  | cap3

def lits (s : String) : List RTok := s.data.map RTok.lit

def dropSs : List Char → List Char
  | 's' :: rest => dropSs rest
  | l => l

def dropPyWs : List Char → List Char
  | c :: rest => if isPyWs c then dropPyWs rest else c :: rest
  | [] => []

/-- Anchored match of a token list at the head of the text, returning the
    single captured group. Greedy matching is exact for these patterns since
    no repeated class overlaps the token that follows it. -/
def match_toks : List RTok → List Char → Option String
  | [], _ => some ""
  | .lit c :: ts, x :: xs => if x == c then match_toks ts xs else none
  | .lit _ :: _, [] => none
  | .anyc :: ts, _ :: xs => match_toks ts xs
  | .anyc :: _, [] => none
  | .sStar :: ts, xs => match_toks ts (dropSs xs)
  | .wsStar :: ts, xs => match_toks ts (dropPyWs xs)
  | .quoteOpt :: ts, x :: xs =>
      if x == '\x27' || x == '"' then match_toks ts xs else match_toks ts (x :: xs)
  | .quoteOpt :: ts, [] => match_toks ts []
  | .quoteReq :: ts, x :: xs =>
      if x == '\x27' || x == '"' then match_toks ts xs else none
  | .quoteReq :: _, [] => none
  | .colonEq :: ts, x :: xs => if x == ':' || x == '=' then match_toks ts xs else none
  | .colonEq :: _, [] => none
  | .cap3 :: ts, c1 :: c2 :: c3 :: xs =>
      if isAsciiUpper c1 && isAsciiUpper c2 && isAsciiUpper c3 then
        match match_toks ts xs with
        | some _ => some (String.mk [c1, c2, c3])
        | none => none
      else none
  | .cap3 :: _, _ => none

/-- re.search: try the anchored match at every position, leftmost wins. -/
def re_search (toks : List RTok) (s : List Char) : Option String :=
  match match_toks toks s with
  | some c => some c
  | none =>
      match s with
      | [] => none
      | _ :: rest => re_search toks rest

/-- The five js_patterns of _currency_from_html, tokenized in source order. -/
def js_patterns : List (List RTok) :=
  [ lits "Shopify" ++ [.lit '\\', .anyc] ++ lits "currency" ++ [.lit '\\', .anyc]
      ++ lits "active" ++ [.lit '\\', .sStar, .lit '=', .lit '\\', .sStar,
                           .quoteOpt, .cap3, .quoteOpt],
    lits "Shopify" ++ [.lit '\\', .anyc] ++ lits "currency"
      ++ [.lit '\\', .sStar, .lit '=', .lit '\\', .sStar, .quoteOpt, .cap3, .quoteOpt],
    lits "currency" ++ [.lit '\\', .sStar, .colonEq, .lit '\\', .sStar,
                        .quoteReq, .cap3, .quoteReq],
    lits "Currency" ++ [.lit '\\', .anyc] ++ lits "current"
      ++ [.lit '\\', .sStar, .lit '=', .lit '\\', .sStar, .quoteOpt, .cap3, .quoteOpt],
    [RTok.lit '"'] ++ lits "currency" ++ [.lit '"', .wsStar, .lit ':', .wsStar,
                                          .lit '"', .cap3, .lit '"'] ]

/-- The fields of a probe/HTML response that _currency_from_html reads; the
    four meta fields and the money texts are the results handed back by the
    external Scrapy css selector engine, in the source's selector order. -/
structure HtmlResponse where
  meta_product_price : Option String
  meta_itemprop : Option String
  meta_og_price : Option String
  meta_currency : Option String
  text : String
  money_texts : List String
  url : String

/-- One step of the meta-tag loop: a truthy selector value whose
    stripped-uppercased form is a 3-letter code. -/
def meta_val_ok (v : Option String) : Option String :=
  match v with
  | some s =>
      if s != "" && isMatch3Upper (pyUpper (pyStrip s)) then some (pyUpper (pyStrip s))
      else none
  | none => none

/-- response.url.split with index 2 (the host part of an http(s) URL). -/
def host_of (url : String) : String :=
  if strStartsWith url "http" then (splitOnChar url '/').getD 2 "" else ""

/-- _currency_from_html: meta tags, then script patterns, then money symbols
    in the joined price texts, then the TLD heuristic. -/
def currency_from_html (r : HtmlResponse) : Option (String × String) :=
  match [r.meta_product_price, r.meta_itemprop, r.meta_og_price,
         r.meta_currency].findSome? meta_val_ok with
  | some c => some (c, "html_meta")
  | none =>
    match js_patterns.findSome? (fun p => re_search p r.text.data) with
    | some c => some (pyUpper c, "html_script")
    | none =>
      let combined := strTake (joinSep " " r.money_texts) 2000
      match SYMBOL_TO_CODE.findSome?
              (fun sc => if strContains combined sc.1 then some sc.2 else none) with
      | some c => some (c, "html_money_symbol")
      | none =>
        let host := host_of r.url
        match TLD_TO_CURRENCY.findSome?
                (fun tc => if strEndsWith host ("." ++ tc.1) || strEndsWith host tc.1
                           then some tc.2 else none) with
        | some c => some (c, "tld_heuristic")
        | none => none

/-- One newline-delimited record of a shop's output stream: the dict that
    write_shop_item serializes, as an ordered key/value list. -/
abbrev OutRec := List (String × Json)

def optJson : Option String → Json
  | some s => .str s
  | none => .null

/-- The currency header dict written first to a shop's stream. -/
def header_rec (shop : String) (code src : Option String) (now : String) : OutRec :=
  [("type", Json.str "currency_info"), ("shop", Json.str shop),
   ("currency", optJson code), ("currency_source", optJson src),
   ("detected_at", Json.str now)]

/-- The placeholder dict written right after an early JSON currency hit. -/
def placeholder_rec : OutRec := [("note", Json.str "header_placeholder")]

def is_header_rec (r : OutRec) : Bool :=
  r.lookup "type" == some (Json.str "currency_info")

/-- Per-shop counters of self.shop_stats. -/
structure Stats where
  items : Nat
  saved : Nat
  failed : Nat
  deriving DecidableEq, Repr

def bump_saved (s : Stats) : Stats := { s with items := s.items + 1, saved := s.saved + 1 }

def bump_failed_stats (s : Stats) : Stats := { s with failed := s.failed + 1 }

/-- The spider's mutable per-run state: currency cache, header bookkeeping,
    per-shop output streams and per-shop counters, all keyed by shop. -/
structure SpiderState where
  shop_currency : String → Option (String × String)
  header_written : String → Bool
  streams : String → List OutRec
  stats : String → Stats

def upd {α : Type} (f : String → α) (k : String) (v : α) : String → α :=
  fun x => if x = k then v else f x

def init_state : SpiderState :=
  { shop_currency := fun _ => none,
    header_written := fun _ => false,
    streams := fun _ => [],
    stats := fun _ => ⟨0, 0, 0⟩ }

def bump_failed (st : SpiderState) (shop : String) : SpiderState :=
  { st with stats := upd st.stats shop (bump_failed_stats (st.stats shop)) }

/-- write_shop_item: append the currency header on the shop's first write,
    then append the record and bump the items/saved counters. -/
def write_shop_item (st : SpiderState) (item_dict : OutRec) (shop : String)
    (now : String) : SpiderState :=
  let st1 :=
    if st.header_written shop then st
    else
      let cs := st.shop_currency shop
      { st with
        streams := upd st.streams shop
          (st.streams shop ++ [header_rec shop (cs.map Prod.fst) (cs.map Prod.snd) now]),
        header_written := upd st.header_written shop true }
  let st2 := { st1 with streams := upd st1.streams shop (st1.streams shop ++ [item_dict]) }
  { st2 with stats := upd st2.stats shop (bump_saved (st2.stats shop)) }

/-- parse_currency_page: cache a detected currency (overwriting any previous
    value) and make sure the header exists before any item. -/
def parse_currency_page (st : SpiderState) (shop : String) (r : HtmlResponse)
    (now : String) : SpiderState :=
  let cs := currency_from_html r
  let st1 :=
    match cs with
    | some cv => { st with shop_currency := upd st.shop_currency shop (some cv) }
    | none => st
  if st1.header_written shop then st1
  else
    { st1 with
      streams := upd st1.streams shop
        (st1.streams shop ++ [header_rec shop (cs.map Prod.fst) (cs.map Prod.snd) now]),
      header_written := upd st1.header_written shop true }

/-- The spider arguments acting as record filters (already normalized by
    __init__: stripped, lowercased, None when not given). -/
structure Filters where
  filter_tag : Option String
  filter_product_type : Option String
  collection : Option String

def no_filters : Filters := ⟨none, none, none⟩

def optStrTruthy : Option String → Bool
  | some s => s != ""
  | none => false

/-- _product_matches_filters. -/
def product_matches_filters (prod : Json) (f : Filters) : Bool :=
  let pt_ok :=
    if optStrTruthy f.filter_product_type then
      let prod_pt := (match jget prod "product_type" with
                      | .str s => s
                      | _ => "")
      (pyLower (pyStrip prod_pt) == f.filter_product_type.getD "")
    else true
  if !pt_ok then false
  else if optStrTruthy f.filter_tag then
    let ft := f.filter_tag.getD ""
    match jget prod "tags" with
    | .str s => (((splitOnChar (pyLower s) ',')).map pyStrip).contains ft
    | .arr l =>
        (l.filterMap (fun t => match t with
                               | .null => none
                               | v => some (pyLower (pyStrip (pyStr v))))).contains ft
    | _ => false
  else true

/-- urllib.parse.urljoin against the shop's https origin, modelled for the
    input shapes that occur (absolute, scheme-relative, root-relative,
    and bare relative paths). -/
def urljoin (base rel : String) : String :=
  if strStartsWith rel "http://" || strStartsWith rel "https://" then rel
  else if strStartsWith rel "//" then "https:" ++ rel
  else if strStartsWith rel "/" then base ++ rel
  else base ++ "/" ++ rel

/-- The images loop of parse_products_json. -/
def build_images (shop : String) (prod : Json) : List String :=
  let images := match jgetD prod "images" (.arr []) with
                | .arr l => l
                | _ => []
  images.filterMap fun img =>
    let src : Json := match img with
                      | .obj _ => jget img "src"
                      | .str s => .str s
                      | _ => .null
    match src with
    | .str s => if s != "" then some (urljoin ("https://" ++ shop) s) else none
    | _ => none

/-- The tags normalization of parse_products_json. -/
def build_tags (prod : Json) : List String :=
  match jget prod "tags" with
  | .str s => (splitOnChar s ',').filterMap fun t =>
      let t1 := pyStrip t
      if t1 != "" then some t1 else none
  | .arr l => l.filterMap fun t =>
      match t with
      | .null => none
      | v => let s := pyStrip (pyStr v); if s != "" then some s else none
  | _ => []

/-- item price: first variant's price when the variants list is truthy. -/
def item_price (prod : Json) : Json :=
  if jsonTruthy (jget prod "variants") then
    match jget prod "variants" with
    | .arr (v0 :: _) => jget v0 "price"
    | _ => .null
  else .null

/-- The per-item currency resolution: cached shop value, else price text. -/
def resolved_currency (cached : Option (String × String)) (price : Json) :
    Option String × Option String :=
  match cached with
  | some cv => (some cv.1, some cv.2)
  | none =>
      match currency_from_price_text price with
      | some c => (some c, some "price_text")
      | none => (none, none)

/-- The item dict built for one JSON product record, keys in the order the
    source assigns them (dict(item) then the three appended currency keys). -/
def build_item_dict (shop : String) (prod : Json)
    (cached : Option (String × String)) : OutRec :=
  let handle := jget prod "handle"
  let url := if jsonTruthy handle then
               Json.str ("https://" ++ shop ++ "/products/" ++ pyStr handle)
             else handle
  let price := item_price prod
  let images := build_images shop prod
  let cc := resolved_currency cached price
  let pwc := if jsonTruthy price && cc.1.isSome then
               Json.str ((cc.1.getD "") ++ ": " ++ pyStr price)
             else price
  [("source", Json.str shop),
   ("product_id", jget prod "id"),
   ("url", url),
   ("title", jget prod "title"),
   ("description", jget prod "body_html"),
   ("variants", jgetD prod "variants" (.arr [])),
   ("price", price),
   ("images", Json.arr (images.map Json.str)),
   ("image_urls", Json.arr (images.map Json.str)),
   ("tags", Json.arr ((build_tags prod).map Json.str)),
   ("raw", prod),
   ("currency", optJson cc.1),
   ("currency_source", optJson cc.2),
   ("price_with_currency", pwc)]

/-- Requests handed back to the scheduler by a callback. -/
inductive Req where
  | currency_probe (shop : String)
  | html_home (shop : String)
  | next_page (shop : String) (since_id : Json)
  | follow_product (shop : String) (href : String)
  | follow_collection (shop : String) (href : String)

def is_next_page : Req → Bool
  | .next_page _ _ => true
  | _ => false

/-- The catalog listing response as parse_products_json reads it: status,
    Content-Type header, url, the json.loads result (none on parse error)
    and the anchor hrefs the css engine would return on an HTML body. -/
structure CatalogResponse where
  status : Nat
  content_type : String
  url : String
  body : Option Json
  hrefs : List String

/-- data.get('products') or [] as the list the loop iterates. -/
def products_of (data : Json) : List Json :=
  match jget data "products" with
  | .arr l => l
  | _ => []

/-- The body of the per-product loop of parse_products_json: filter, build
    the item dict, possibly schedule the currency probe, write the item. -/
def prod_step (shop : String) (f : Filters) (now : String)
    (acc : SpiderState × List Req) (prod : Json) : SpiderState × List Req :=
  if product_matches_filters prod f then
    let st := acc.1
    let cached := st.shop_currency shop
    let cc := resolved_currency cached (item_price prod)
    let reqs := acc.2 ++ (if cc.1.isNone && (st.shop_currency shop).isNone
                          then [Req.currency_probe shop] else [])
    (write_shop_item st (build_item_dict shop prod cached) shop now, reqs)
  else acc

/-- parse_products_json. -/
def parse_products_json (st : SpiderState) (shop : String) (f : Filters)
    (r : CatalogResponse) (now : String) : SpiderState × List Req :=
  if r.status = 401 ∨ r.status = 403 then
    (bump_failed st shop, [Req.html_home shop])
  else if r.status = 404 then
    (bump_failed st shop, [Req.html_home shop])
  else if strContains r.content_type "application/json" || strEndsWith r.url ".json" then
    match r.body with
    | none => (bump_failed st shop, [Req.html_home shop])
    | some data =>
      let cs := currency_from_json_shallow data
      let st1 :=
        match cs.1 with
        | some code =>
            let cv := some (code, cs.2.getD "")
            let sta := { st with shop_currency := upd st.shop_currency shop cv }
            if sta.header_written shop then sta
            else write_shop_item sta placeholder_rec shop now
        | none => st
      let products := products_of data
      let looped := products.foldl (prod_step shop f now) (st1, [])
      let page_reqs :=
        match products.getLast? with
        | some lastProd =>
            let last_id := jget lastProd "id"
            if jsonTruthy last_id then [Req.next_page shop last_id] else []
        | none => []
      (looped.1, looped.2 ++ page_reqs)
  else
    (st, (r.hrefs.filterMap fun h =>
            if strContains h "/products/" then some (Req.follow_product shop h) else none)
         ++ (r.hrefs.filterMap fun h =>
            if strContains h "/collections/" then some (Req.follow_collection shop h) else none))

/-- The fields of a product HTML page that parse_product_page reads (css and
    xpath selector results are inputs from the external selector engine). -/
structure ProductPageResponse where
  url : String
  h1_text : Option String
  title_text : Option String
  desc_parts : List String
  price_text : Option String
  img_srcs : List String
  text : String

/-- Python `a or b` over two selector results, as a JSON field value. -/
def pyOrStrOpt (a b : Option String) : Json :=
  match a with
  | some s => if s != "" then .str s else optJson b
  | none => optJson b

/-- The item dict built by parse_product_page, keys in assignment order. -/
def build_html_item (shop : String) (r : ProductPageResponse) : OutRec :=
  let price : Json :=
    match r.price_text with
    | some p => if p != "" then .str (pyStrip p) else .null
    | none => .null
  let images := r.img_srcs.map (urljoin r.url)
  [("source", Json.str shop),
   ("url", Json.str r.url),
   ("title", pyOrStrOpt r.h1_text r.title_text),
   ("description", Json.str (pyStrip (String.join r.desc_parts))),
   ("price", price),
   ("images", Json.arr (images.map Json.str)),
   ("image_urls", Json.arr (images.map Json.str)),
   ("raw", Json.str (strTake r.text 1000))]

/-- parse_product_page: build the HTML item and write it. -/
def parse_product_page (st : SpiderState) (shop : String)
    (r : ProductPageResponse) (now : String) : SpiderState × List Req :=
  (write_shop_item st (build_html_item shop r) shop now, [])

/-- The fields of a home/collection HTML page that parse_collection_page
    reads. -/
structure CollectionResponse where
  url : String
  text : String
  title_text : Option String
  hrefs : List String

/-- parse_collection_page: password-protection check, then follow product
    links; a page without any is counted as a failure. -/
def parse_collection_page (st : SpiderState) (shop : String)
    (r : CollectionResponse) : SpiderState × List Req :=
  let body_text := strTake (pyLower r.text) 2000
  if strContains body_text "password"
     && (strContains body_text "this store is password protected"
         || strContains (pyLower (r.title_text.getD "")) "password") then
    (bump_failed st shop, [])
  else
    let prods := r.hrefs.filter fun h => strContains h "/products/"
    if prods.isEmpty then (bump_failed st shop, [])
    else (st, prods.map (Req.follow_product shop))

/-- errback_handler: count a failure against the shop when one is known. -/
def errback_handler (st : SpiderState) (shop : Option String) :
    SpiderState × List Req :=
  match shop with
  | some sh => (bump_failed st sh, [])
  | none => (st, [])

/-- The handle_httpstatus_list set on every catalog request. -/
def handled_statuses : List Nat := [401, 403, 404]

/-- Delivery of a catalog response, modelling Scrapy's HttpError middleware:
    a response whose status is neither 2xx nor in handle_httpstatus_list is
    routed to the request errback instead of the callback. -/
def route_catalog_response (st : SpiderState) (shop : String) (f : Filters)
    (r : CatalogResponse) (now : String) : SpiderState × List Req :=
  if (200 ≤ r.status ∧ r.status < 300) ∨ r.status ∈ handled_statuses then
    parse_products_json st shop f r now
  else
    errback_handler st (some shop)

/-- One response delivery, with the wall-clock string the spider would read
    when writing a header. The scheduler may deliver these in any order. -/
inductive Event where
  | currency_resp (shop : String) (r : HtmlResponse) (now : String)
  | catalog_resp (shop : String) (f : Filters) (r : CatalogResponse) (now : String)
  | product_resp (shop : String) (r : ProductPageResponse) (now : String)
  | collection_resp (shop : String) (r : CollectionResponse)
  | request_error (shop : Option String)

def step (st : SpiderState) (e : Event) : SpiderState × List Req :=
  match e with
  | .currency_resp shop r now => (parse_currency_page st shop r now, [])
  | .catalog_resp shop f r now => route_catalog_response st shop f r now
  | .product_resp shop r now => parse_product_page st shop r now
  | .collection_resp shop r => parse_collection_page st shop r
  | .request_error shop => errback_handler st shop

def run_events (es : List Event) : SpiderState :=
  es.foldl (fun st e => (step st e).1) init_state

/-- One line of the crawl summary, as spider_closed formats it. -/
def summary_line (shop : String) (s : Stats) : String :=
  shop ++ ": items=" ++ toString s.items ++ ", saved=" ++ toString s.saved
       ++ ", failed=" ++ toString s.failed ++ "\n"

def insert_sorted (p : String × Stats) : List (String × Stats) → List (String × Stats)
  | [] => [p]
  | q :: rest => if strLt p.1 q.1 then p :: q :: rest else q :: insert_sorted p rest

/-- sorted(dict.items()) over the unique shop keys. -/
def sort_by_key (l : List (String × Stats)) : List (String × Stats) :=
  l.foldr insert_sorted []

/-- The crawl summary file spider_closed writes. -/
def summary_file (stats : List (String × Stats)) : String :=
  "crawl summary per shop\n"
    ++ String.join ((sort_by_key stats).map fun p => summary_line p.1 p.2)

theorem upd_self {α : Type} (f : String → α) (k : String) (v : α) : upd f k v k = v := by
  simp [upd]

theorem upd_other {α : Type} (f : String → α) (k : String) (v : α) {x : String}
    (h : x ≠ k) : upd f k v x = f x := by
  simp [upd, h]

theorem upd_upd {α : Type} (f : String → α) (k : String) (a b : α) :
    upd (upd f k a) k b = upd f k b := by
  funext x
  by_cases h : x = k <;> simp [upd, h]

theorem wsi_shop_currency (st : SpiderState) (item : OutRec) (sh now : String) :
    (write_shop_item st item sh now).shop_currency = st.shop_currency := by
  unfold write_shop_item
  cases h : st.header_written sh <;> simp [h]

theorem wsi_stats (st : SpiderState) (item : OutRec) (sh now : String) :
    (write_shop_item st item sh now).stats = upd st.stats sh (bump_saved (st.stats sh)) := by
  unfold write_shop_item
  cases h : st.header_written sh <;> simp [h]

theorem wsi_header_written_true (st : SpiderState) (item : OutRec) (sh now : String)
    (h : st.header_written sh = true) :
    (write_shop_item st item sh now).header_written = st.header_written := by
  unfold write_shop_item
  simp [h]

theorem wsi_streams_true (st : SpiderState) (item : OutRec) (sh now : String)
    (h : st.header_written sh = true) :
    (write_shop_item st item sh now).streams
      = upd st.streams sh (st.streams sh ++ [item]) := by
  unfold write_shop_item
  simp [h]

theorem wsi_header_written_false (st : SpiderState) (item : OutRec) (sh now : String)
    (h : st.header_written sh = false) :
    (write_shop_item st item sh now).header_written = upd st.header_written sh true := by
  unfold write_shop_item
  simp [h]

theorem wsi_streams_false (st : SpiderState) (item : OutRec) (sh now : String)
    (h : st.header_written sh = false) :
    (write_shop_item st item sh now).streams
      = upd st.streams sh
          (st.streams sh
            ++ [header_rec sh ((st.shop_currency sh).map Prod.fst)
                  ((st.shop_currency sh).map Prod.snd) now, item]) := by
  unfold write_shop_item
  simp [h, upd_self, upd_upd]

/-- Header-leading shape of one shop's stream relative to its header flag. -/
def stream_ok (sh : String) : Bool → List OutRec → Prop
  | false, l => l = []
  | true, l => ∃ code src now rest,
      l = header_rec sh code src now :: rest ∧ ∀ r ∈ rest, is_header_rec r = false

def state_inv (st : SpiderState) : Prop :=
  ∀ sh, stream_ok sh (st.header_written sh) (st.streams sh)

theorem build_item_dict_not_header (shop : String) (prod : Json)
    (cached : Option (String × String)) :
    is_header_rec (build_item_dict shop prod cached) = false := rfl

theorem build_html_item_not_header (shop : String) (r : ProductPageResponse) :
    is_header_rec (build_html_item shop r) = false := rfl

theorem placeholder_not_header : is_header_rec placeholder_rec = false := rfl

theorem state_inv_init : state_inv init_state := by
  intro sh
  exact rfl

theorem inv_bump_failed (st : SpiderState) (sh : String) (hinv : state_inv st) :
    state_inv (bump_failed st sh) :=
  fun x => hinv x

theorem inv_write (st : SpiderState) (item : OutRec) (sh now : String)
    (hinv : state_inv st) (hi : is_header_rec item = false) :
    state_inv (write_shop_item st item sh now) := by
  intro x
  by_cases hx : x = sh
  · subst hx
    cases hh : st.header_written x with
    | true =>
        rw [wsi_header_written_true st item x now hh,
            wsi_streams_true st item x now hh, upd_self, hh]
        have h0 := hinv x
        rw [hh] at h0
        obtain ⟨code, src, n, rest, hl, hrest⟩ := h0
        refine ⟨code, src, n, rest ++ [item], by rw [hl]; simp, ?_⟩
        intro r hr
        rcases List.mem_append.mp hr with h1 | h1
        · exact hrest r h1
        · rw [List.mem_singleton.mp h1]; exact hi
    | false =>
        rw [wsi_header_written_false st item x now hh,
            wsi_streams_false st item x now hh, upd_self, upd_self]
        have h0 := hinv x
        rw [hh] at h0
        rw [h0]
        refine ⟨(st.shop_currency x).map Prod.fst, (st.shop_currency x).map Prod.snd,
                now, [item], by simp, ?_⟩
        intro r hr
        rw [List.mem_singleton.mp hr]
        exact hi
  · cases hh : st.header_written sh with
    | true =>
        rw [wsi_header_written_true st item sh now hh,
            wsi_streams_true st item sh now hh, upd_other _ _ _ hx]
        exact hinv x
    | false =>
        rw [wsi_header_written_false st item sh now hh,
            wsi_streams_false st item sh now hh, upd_other _ _ _ hx, upd_other _ _ _ hx]
        exact hinv x

theorem inv_currency_page (st : SpiderState) (sh : String) (r : HtmlResponse)
    (now : String) (hinv : state_inv st) :
    state_inv (parse_currency_page st sh r now) := by
  unfold parse_currency_page
  cases hcs : currency_from_html r with
  | none =>
      simp only [hcs]
      by_cases hh : st.header_written sh
      · simpa [hh] using hinv
      · simp only [hh, if_neg, Bool.false_eq_true, not_false_eq_true, if_false]
        intro x
        by_cases hx : x = sh
        · subst hx
          dsimp only
          rw [upd_self, upd_self]
          have h0 := hinv x
          rw [Bool.not_eq_true] at hh
          rw [hh] at h0
          rw [h0]
          exact ⟨none, none, now, [], by simp, by intro r hr; cases hr⟩
        · dsimp only
          rw [upd_other _ _ _ hx, upd_other _ _ _ hx]
          exact hinv x
  | some cv =>
      simp only [hcs]
      by_cases hh : st.header_written sh
      · simp only [hh, if_true]
        intro x
        exact hinv x
      · simp only [hh, Bool.false_eq_true, if_false]
        intro x
        by_cases hx : x = sh
        · subst hx
          dsimp only
          rw [upd_self, upd_self]
          have h0 := hinv x
          rw [Bool.not_eq_true] at hh
          rw [hh] at h0
          rw [h0]
          exact ⟨some cv.1, some cv.2, now, [], by simp, by intro r hr; cases hr⟩
        · dsimp only
          rw [upd_other _ _ _ hx, upd_other _ _ _ hx]
          exact hinv x

theorem inv_prod_loop (sh : String) (f : Filters) (now : String) (ps : List Json) :
    ∀ acc : SpiderState × List Req, state_inv acc.1 →
      state_inv (ps.foldl (prod_step sh f now) acc).1 := by
  induction ps with
  | nil => intro acc h; simpa using h
  | cons p rest ih =>
      intro acc h
      rw [List.foldl_cons]
      apply ih
      unfold prod_step
      by_cases hm : product_matches_filters p f
      · simp only [hm, if_true]
        exact inv_write _ _ _ _ h (build_item_dict_not_header _ _ _)
      · simpa [hm] using h

theorem inv_set_currency (st : SpiderState) (g : String → Option (String × String))
    (hinv : state_inv st) : state_inv { st with shop_currency := g } :=
  fun x => hinv x

theorem inv_parse_products (st : SpiderState) (sh : String) (f : Filters)
    (r : CatalogResponse) (now : String) (hinv : state_inv st) :
    state_inv (parse_products_json st sh f r now).1 := by
  unfold parse_products_json
  by_cases h1 : r.status = 401 ∨ r.status = 403
  · rw [if_pos h1]
    exact inv_bump_failed st sh hinv
  · rw [if_neg h1]
    by_cases h2 : r.status = 404
    · rw [if_pos h2]
      exact inv_bump_failed st sh hinv
    · rw [if_neg h2]
      by_cases h3 : (strContains r.content_type "application/json"
                      || strEndsWith r.url ".json") = true
      · rw [if_pos h3]
        cases hb : r.body with
        | none => exact inv_bump_failed st sh hinv
        | some data =>
            have hst1 : ∀ st1 : SpiderState, state_inv st1 →
                state_inv ((products_of data).foldl (prod_step sh f now) (st1, [])).1 :=
              fun st1 h => inv_prod_loop sh f now (products_of data) (st1, []) h
            cases hcs : (currency_from_json_shallow data).1 with
            | none =>
                simp only [hcs]
                exact hst1 st hinv
            | some code =>
                simp only [hcs]
                have hcache : state_inv { st with shop_currency := upd st.shop_currency sh (some (code, ((currency_from_json_shallow data).2).getD "")) } :=
                  inv_set_currency st _ hinv
                by_cases hh : st.header_written sh = true
                · rw [if_pos hh]
                  exact hst1 _ hcache
                · rw [if_neg hh]
                  exact hst1 _ (inv_write _ _ _ _ hcache placeholder_not_header)
      · rw [if_neg h3]
        intro x
        exact hinv x

theorem inv_collection_page (st : SpiderState) (sh : String) (r : CollectionResponse)
    (hinv : state_inv st) : state_inv (parse_collection_page st sh r).1 := by
  unfold parse_collection_page
  by_cases h1 : (strContains (strTake (pyLower r.text) 2000) "password"
      && (strContains (strTake (pyLower r.text) 2000) "this store is password protected"
          || strContains (pyLower (r.title_text.getD "")) "password")) = true
  · simpa [h1] using inv_bump_failed st sh hinv
  · simp only [h1, Bool.false_eq_true, if_false]
    by_cases h2 : (r.hrefs.filter fun h => strContains h "/products/").isEmpty
    · simpa [h2] using inv_bump_failed st sh hinv
    · simpa [h2] using hinv

theorem inv_errback (st : SpiderState) (sh : Option String) (hinv : state_inv st) :
    state_inv (errback_handler st sh).1 := by
  cases sh with
  | none => exact hinv
  | some s => exact inv_bump_failed st s hinv

theorem inv_step (st : SpiderState) (e : Event) (hinv : state_inv st) :
    state_inv (step st e).1 := by
  cases e with
  | currency_resp shop r now => exact inv_currency_page st shop r now hinv
  | catalog_resp shop f r now =>
      unfold step route_catalog_response
      by_cases h : (200 ≤ r.status ∧ r.status < 300) ∨ r.status ∈ handled_statuses
      · simpa [h] using inv_parse_products st shop f r now hinv
      · simpa [h] using inv_errback st (some shop) hinv
  | product_resp shop r now =>
      exact inv_write _ _ _ _ hinv (build_html_item_not_header shop r)
  | collection_resp shop r => exact inv_collection_page st shop r hinv
  | request_error shop => exact inv_errback st shop hinv

theorem inv_run (es : List Event) : state_inv (run_events es) := by
  have h : ∀ st : SpiderState, state_inv st →
      state_inv (es.foldl (fun st e => (step st e).1) st) := by
    induction es with
    | nil => intro st h; simpa using h
    | cons e rest ih =>
        intro st h
        rw [List.foldl_cons]
        exact ih _ (inv_step st e h)
  exact h init_state state_inv_init

/-- C6: for every interleaving of response deliveries and every shop, the
    shop's output stream is either still empty or begins with exactly one
    currency_info header record — the header dict with the shop, currency,
    currency_source and detected_at fields — followed only by non-header
    records, including when no currency was ever resolved (null fields). -/
theorem header_before_data (es : List Event) (sh : String) :
    (run_events es).streams sh = []
    ∨ ∃ code src now rest,
        (run_events es).streams sh = header_rec sh code src now :: rest
        ∧ ∀ r ∈ rest, is_header_rec r = false := by
  have h := inv_run es sh
  cases hh : (run_events es).header_written sh
  · rw [hh] at h
    exact Or.inl h
  · rw [hh] at h
    exact Or.inr h

theorem prod_loop_effect (sh : String) (f : Filters) (now : String) (ps : List Json) :
    ∀ (st : SpiderState) (reqs : List Req),
      st.header_written sh = true →
      (ps.foldl (prod_step sh f now) (st, reqs)).1.streams sh
          = st.streams sh
            ++ (ps.filter (fun p => product_matches_filters p f)).map
                 (fun p => build_item_dict sh p (st.shop_currency sh))
      ∧ ((ps.foldl (prod_step sh f now) (st, reqs)).1.stats sh).items
          = (st.stats sh).items + (ps.filter (fun p => product_matches_filters p f)).length
      ∧ ((ps.foldl (prod_step sh f now) (st, reqs)).1.stats sh).saved
          = (st.stats sh).saved + (ps.filter (fun p => product_matches_filters p f)).length
      ∧ ((ps.foldl (prod_step sh f now) (st, reqs)).1.stats sh).failed
          = (st.stats sh).failed
      ∧ (ps.foldl (prod_step sh f now) (st, reqs)).1.header_written = st.header_written
      ∧ (ps.foldl (prod_step sh f now) (st, reqs)).1.shop_currency = st.shop_currency := by
  induction ps with
  | nil =>
      intro st reqs hw
      simp
  | cons p rest ih =>
      intro st reqs hw
      rw [List.foldl_cons]
      by_cases hm : product_matches_filters p f
      · have hstep : prod_step sh f now (st, reqs) p
            = (write_shop_item st (build_item_dict sh p (st.shop_currency sh)) sh now,
               reqs ++ (if (resolved_currency (st.shop_currency sh) (item_price p)).1.isNone
                          && (st.shop_currency sh).isNone
                        then [Req.currency_probe sh] else [])) := by
          simp [prod_step, hm]
        rw [hstep]
        set st1 := write_shop_item st (build_item_dict sh p (st.shop_currency sh)) sh now with hst1
        have hw1 : st1.header_written sh = true := by
          rw [hst1, wsi_header_written_true st _ sh now hw]
          exact hw
        obtain ⟨e1, e2, e3, e4, e5, e6⟩ := ih st1 _ hw1
        have hstr : st1.streams sh
            = st.streams sh ++ [build_item_dict sh p (st.shop_currency sh)] := by
          rw [hst1, wsi_streams_true st _ sh now hw, upd_self]
        have hsta : st1.stats sh = bump_saved (st.stats sh) := by
          rw [hst1, wsi_stats st _ sh now, upd_self]
        have hcur : st1.shop_currency = st.shop_currency := by
          rw [hst1, wsi_shop_currency]
        have hhw : st1.header_written = st.header_written := by
          rw [hst1, wsi_header_written_true st _ sh now hw]
        rw [hcur] at e1
        refine ⟨?_, ?_, ?_, ?_, ?_, ?_⟩
        · rw [e1, hstr, List.filter_cons_of_pos (by simpa using hm)]
          simp [List.append_assoc]
        · rw [e2, hsta, List.filter_cons_of_pos (by simpa using hm)]
          simp [bump_saved]
          omega
        · rw [e3, hsta, List.filter_cons_of_pos (by simpa using hm)]
          simp [bump_saved]
          omega
        · rw [e4, hsta]
          simp [bump_saved]
        · rw [e5, hhw]
        · rw [e6, hcur]
      · have hstep : prod_step sh f now (st, reqs) p = (st, reqs) := by
          simp [prod_step, hm]
        rw [hstep]
        have := ih st reqs hw
        rw [List.filter_cons_of_neg (by simpa using hm)]
        exact this

theorem getLast?_none_eq_nil {α : Type} : ∀ {l : List α}, l.getLast? = none → l = []
  | [], _ => rfl
  | a :: rest, h => by
      cases hr : rest.getLast? with
      | some b =>
          rw [List.getLast?_cons, hr] at h
          cases h
      | none =>
          have : rest = [] := getLast?_none_eq_nil hr
          subst this
          cases h

theorem prod_loop_reqs_no_next (sh : String) (f : Filters) (now : String)
    (ps : List Json) :
    ∀ acc : SpiderState × List Req,
      ((ps.foldl (prod_step sh f now) acc).2).any is_next_page
        = acc.2.any is_next_page := by
  induction ps with
  | nil => intro acc; rfl
  | cons p rest ih =>
      intro acc
      rw [List.foldl_cons, ih]
      unfold prod_step
      by_cases hm : product_matches_filters p f
      · simp only [hm, if_true]
        rw [List.any_append]
        have : ((if (resolved_currency (acc.1.shop_currency sh) (item_price p)).1.isNone
                    && (acc.1.shop_currency sh).isNone
                 then [Req.currency_probe sh] else []) : List Req).any is_next_page
                = false := by
          split <;> simp [is_next_page]
        rw [this, Bool.or_false]
      · simp [hm]

/-- Pagination decision of parse_products_json on a parseable JSON listing:
    a next-page request is issued exactly when the product list is non-empty
    and its last record carries a truthy id — independent of any count of
    pages already crawled. -/
theorem paginate_rule (st : SpiderState) (sh : String) (f : Filters)
    (r : CatalogResponse) (now : String) (data : Json)
    (hs : r.status = 200)
    (hct : strContains r.content_type "application/json" = true)
    (hb : r.body = some data) :
    ((parse_products_json st sh f r now).2).any is_next_page
      = (!(products_of data).isEmpty
         && jsonTruthy (jget ((products_of data).getLast?.getD Json.null) "id")) := by
  unfold parse_products_json
  rw [if_neg (by rw [hs]; simp), if_neg (by rw [hs]; simp),
      if_pos (by rw [hct]; simp), hb]
  simp only
  rw [List.any_append, prod_loop_reqs_no_next]
  simp only [List.any_nil, Bool.false_or]
  cases hl : (products_of data).getLast? with
  | none =>
      rw [getLast?_none_eq_nil hl]
      simp [is_next_page]
  | some lastProd =>
      have hne : (products_of data).isEmpty = false := by
        cases hps : products_of data with
        | nil => rw [hps] at hl; cases hl
        | cons a rest => rfl
      rw [hne]
      simp only [Option.getD, Bool.not_false, Bool.true_and]
      cases ht : jsonTruthy (jget lastProd "id") with
      | true => simp [is_next_page]
      | false => simp

def demo_shop : String := "demo.myshopify.com"

/-- A 200 JSON catalog page whose products carry just the given ids. -/
def ids_page (ids : List Int) : CatalogResponse :=
  { status := 200, content_type := "application/json",
    url := "https://demo.myshopify.com/products.json?limit=250",
    body := some (.obj [("products", .arr (ids.map fun i => .obj [("id", .num i)]))]),
    hrefs := [] }

def overlap_run : SpiderState :=
  run_events [ .catalog_resp demo_shop no_filters (ids_page [1, 2]) "t1",
               .catalog_resp demo_shop no_filters (ids_page [2, 3]) "t2" ]

/-- C1 counterexample: with overlapping pages [1,2] then [2,3] the emitted
    product_id sequence for the shop is [1,2,2,3] — id 2 is emitted twice,
    not once, because the spider keeps no per-shop set of seen ids. -/
theorem duplicate_id_emitted_twice :
    (overlap_run.streams demo_shop).filterMap (List.lookup "product_id")
      = [Json.num 1, Json.num 2, Json.num 2, Json.num 3]
    ∧ ((overlap_run.streams demo_shop).filterMap (List.lookup "product_id")).count
        (Json.num 2) = 2 :=
  ⟨rfl, rfl⟩

/-- C1 amended: parse_products_json performs no deduplication: on a parseable
    JSON listing (here with no currency hit in the payload and the header
    already written) it appends every filter-passing product of the page to
    the shop's stream, regardless of what was emitted before. -/
theorem page_emits_all_filtered_products (st : SpiderState) (sh : String)
    (f : Filters) (r : CatalogResponse) (now : String) (data : Json)
    (hs : r.status = 200)
    (hct : strContains r.content_type "application/json" = true)
    (hb : r.body = some data)
    (hw : st.header_written sh = true)
    (hdet : (currency_from_json_shallow data).1 = none) :
    (parse_products_json st sh f r now).1.streams sh
      = st.streams sh
        ++ ((products_of data).filter (fun p => product_matches_filters p f)).map
             (fun p => build_item_dict sh p (st.shop_currency sh)) := by
  unfold parse_products_json
  rw [if_neg (by rw [hs]; simp), if_neg (by rw [hs]; simp),
      if_pos (by rw [hct]; simp), hb]
  simp only [hdet]
  exact (prod_loop_effect sh f now (products_of data) st [] hw).1

def blank_probe : HtmlResponse :=
  { meta_product_price := none, meta_itemprop := none, meta_og_price := none,
    meta_currency := none, text := "", money_texts := [], url := "" }

def header_done_state : SpiderState :=
  run_events [.currency_resp demo_shop blank_probe "t0"]

/-- C1 amended witness: once the header exists, processing the overlapping
    page [2,3] appends both of its products, although id 2 was emitted on
    the previous page. -/
theorem page_emits_all_filtered_products_witness :
    header_done_state.header_written demo_shop = true
    ∧ (currency_from_json_shallow
        (Json.obj [("products", Json.arr [Json.obj [("id", Json.num 2)],
                                          Json.obj [("id", Json.num 3)]])])).1 = none
    ∧ (parse_products_json header_done_state demo_shop no_filters (ids_page [2, 3]) "t1").1.streams
        demo_shop
      = header_done_state.streams demo_shop
        ++ ((products_of (Json.obj [("products", Json.arr [Json.obj [("id", Json.num 2)],
                Json.obj [("id", Json.num 3)]])])).filter
              (fun p => product_matches_filters p no_filters)).map
              (fun p => build_item_dict demo_shop p (header_done_state.shop_currency demo_shop)) :=
  ⟨rfl, rfl,
   page_emits_all_filtered_products header_done_state demo_shop no_filters
     (ids_page [2, 3]) "t1" _ rfl rfl rfl rfl rfl⟩

def empty_page : CatalogResponse := ids_page []

/-- C2 counterexample: after a single empty catalog page — where the claimed
    counter would be 1, not 3 — the spider issues no request at all for the
    shop: the crawl halts on the first empty page. -/
theorem first_empty_page_halts :
    (parse_products_json init_state demo_shop no_filters empty_page "t").2 = [] := rfl

/-- C2 amended: no consecutive-empty-pages counter exists: on a parseable
    JSON listing the spider issues a next-page request exactly when the page
    is non-empty and its last product has a truthy id, so the first empty
    page terminates the shop's pagination. -/
theorem next_page_request_iff_nonempty (st : SpiderState) (sh : String)
    (f : Filters) (r : CatalogResponse) (now : String) (data : Json)
    (hs : r.status = 200)
    (hct : strContains r.content_type "application/json" = true)
    (hb : r.body = some data) :
    ((parse_products_json st sh f r now).2).any is_next_page
      = (!(products_of data).isEmpty
         && jsonTruthy (jget ((products_of data).getLast?.getD Json.null) "id")) :=
  paginate_rule st sh f r now data hs hct hb

/-- C2 amended witness: on the concrete empty page the equation holds and
    both sides are false — no follow-up request. -/
theorem next_page_request_iff_nonempty_witness :
    empty_page.status = 200
    ∧ ((parse_products_json init_state demo_shop no_filters empty_page "t").2).any is_next_page
        = (!(products_of (Json.obj [("products", Json.arr [])])).isEmpty
           && jsonTruthy (jget ((products_of (Json.obj [("products", Json.arr [])])).getLast?.getD
                Json.null) "id")) :=
  ⟨rfl, next_page_request_iff_nonempty init_state demo_shop no_filters empty_page "t" _
          rfl rfl rfl⟩

def nonempty_page : CatalogResponse := ids_page [5]

def crawl_state : Nat → SpiderState
  | 0 => init_state
  | n + 1 => (parse_products_json (crawl_state n) demo_shop no_filters nonempty_page "t").1

/-- C3 counterexample: after 500 non-empty pages have been processed for the
    shop, processing the 501st non-empty page still issues a next-page
    request — no ceiling of 500 pages is ever applied. -/
theorem next_page_after_500_pages :
    ((parse_products_json (crawl_state 500) demo_shop no_filters nonempty_page "t").2).any
      is_next_page = true := by
  rw [paginate_rule (crawl_state 500) demo_shop no_filters nonempty_page "t"
        (Json.obj [("products", Json.arr [Json.obj [("id", Json.num 5)]])]) rfl rfl rfl]
  rfl

/-- C3 amended: the spider has no max_pages ceiling: on every parseable
    non-empty JSON listing whose last product id is truthy, a next-page
    request is issued, whatever state the crawl has reached — the state
    carries no page counter the decision could depend on. -/
theorem no_page_ceiling (st : SpiderState) (sh : String) (f : Filters)
    (r : CatalogResponse) (now : String) (data : Json)
    (hs : r.status = 200)
    (hct : strContains r.content_type "application/json" = true)
    (hb : r.body = some data)
    (hne : (products_of data).isEmpty = false)
    (hid : jsonTruthy (jget ((products_of data).getLast?.getD Json.null) "id") = true) :
    ((parse_products_json st sh f r now).2).any is_next_page = true := by
  rw [paginate_rule st sh f r now data hs hct hb, hne, hid]
  rfl

/-- C3 amended witness. -/
theorem no_page_ceiling_witness :
    nonempty_page.status = 200
    ∧ ((parse_products_json init_state demo_shop no_filters nonempty_page "t").2).any
        is_next_page = true :=
  ⟨rfl, no_page_ceiling init_state demo_shop no_filters nonempty_page "t" _
          rfl rfl rfl rfl rfl⟩

def status_resp (n : Nat) : CatalogResponse :=
  { status := n, content_type := "text/html",
    url := "https://demo.myshopify.com/products.json?limit=250",
    body := none, hrefs := [] }

/-- C4 counterexample: a 406 listing response triggers no fallback of any
    kind: 406 is not in handle_httpstatus_list, so the response reaches only
    the errback, which counts one failure and issues no request. -/
theorem status_406_no_fallback :
    (route_catalog_response init_state demo_shop no_filters (status_resp 406) "t").2 = []
    ∧ (route_catalog_response init_state demo_shop no_filters (status_resp 406) "t").1.stats
        demo_shop = ⟨0, 0, 1⟩ :=
  ⟨rfl, rfl⟩

/-- C4 amended: there is no Standard/Offset/Alternate strategy rotation: a
    404 listing response makes the spider fall back exactly once, to plain
    HTML crawling of the shop's homepage, while a 406 response goes to the
    errback — one failure counted, no request issued. -/
theorem fallback_single_html_home (st : SpiderState) (sh : String) (f : Filters)
    (r4 r6 : CatalogResponse) (now : String)
    (h4 : r4.status = 404) (h6 : r6.status = 406) :
    (route_catalog_response st sh f r4 now).2 = [Req.html_home sh]
    ∧ (route_catalog_response st sh f r6 now).2 = []
    ∧ (route_catalog_response st sh f r6 now).1.stats sh
        = bump_failed_stats (st.stats sh) := by
  refine ⟨?_, ?_, ?_⟩
  · unfold route_catalog_response
    rw [if_pos (by rw [h4]; simp [handled_statuses])]
    unfold parse_products_json
    rw [if_neg (by rw [h4]; simp), if_pos h4]
  · unfold route_catalog_response
    rw [if_neg (by rw [h6]; simp [handled_statuses])]
    rfl
  · unfold route_catalog_response
    rw [if_neg (by rw [h6]; simp [handled_statuses])]
    show (bump_failed st sh).stats sh = bump_failed_stats (st.stats sh)
    unfold bump_failed
    dsimp only
    rw [upd_self]

/-- C4 amended witness. -/
theorem fallback_single_html_home_witness :
    (status_resp 404).status = 404
    ∧ (status_resp 406).status = 406
    ∧ (route_catalog_response init_state demo_shop no_filters (status_resp 404) "t").2
        = [Req.html_home demo_shop] :=
  ⟨rfl, rfl,
   (fallback_single_html_home init_state demo_shop no_filters (status_resp 404)
      (status_resp 406) "t" rfl rfl).1⟩

def pkr_page : CatalogResponse :=
  { status := 200, content_type := "application/json",
    url := "https://demo.myshopify.com/products.json?limit=250",
    body := some (.obj [("currency", .str "PKR"),
                        ("products", .arr [.obj [("id", .num 1)]])]),
    hrefs := [] }

def usd_probe : HtmlResponse :=
  { meta_product_price := some "USD", meta_itemprop := none, meta_og_price := none,
    meta_currency := none, text := "", money_texts := [],
    url := "https://demo.myshopify.com/collections/all" }

/-- C5 counterexample: the catalog page records (PKR, json_key) for the shop;
    the probe response arriving later detects USD from a meta tag and
    overwrites the recorded pair — the first detector's result is not final. -/
theorem currency_overwritten_by_probe :
    (run_events [.catalog_resp demo_shop no_filters pkr_page "t1"]).shop_currency demo_shop
      = some ("PKR", "json_key")
    ∧ (run_events [.catalog_resp demo_shop no_filters pkr_page "t1",
                   .currency_resp demo_shop usd_probe "t2"]).shop_currency demo_shop
      = some ("USD", "html_meta") :=
  ⟨rfl, rfl⟩

/-- C5 amended: currency is not sticky: whenever the HTML detector succeeds
    on a probe response, parse_currency_page overwrites the shop's cached
    (code, source) pair with the new result, whatever was recorded before —
    the last successful detector wins. -/
theorem currency_last_detection_wins (st : SpiderState) (sh : String)
    (r : HtmlResponse) (now : String) (cv : String × String)
    (h : currency_from_html r = some cv) :
    (parse_currency_page st sh r now).shop_currency sh = some cv := by
  unfold parse_currency_page
  rw [h]
  by_cases hh : st.header_written sh = true
  · rw [if_pos hh]
    dsimp only
    rw [upd_self]
  · rw [if_neg hh]
    dsimp only
    rw [upd_self]

def pkr_cached_state : SpiderState :=
  run_events [.catalog_resp demo_shop no_filters pkr_page "t1"]

/-- C5 amended witness: a state that already holds (PKR, json_key) ends up
    with (USD, html_meta) after the probe. -/
theorem currency_last_detection_wins_witness :
    currency_from_html usd_probe = some ("USD", "html_meta")
    ∧ pkr_cached_state.shop_currency demo_shop = some ("PKR", "json_key")
    ∧ (parse_currency_page pkr_cached_state demo_shop usd_probe "t2").shop_currency demo_shop
        = some ("USD", "html_meta") :=
  ⟨rfl, rfl, currency_last_detection_wins pkr_cached_state demo_shop usd_probe "t2" _ rfl⟩

def oos_prod : Json :=
  .obj [("id", .num 7), ("title", .str "T"),
        ("variants", .arr [.obj [("available", .bool false)],
                           .obj [("available", .bool false)]])]

def mixed_prod : Json :=
  .obj [("id", .num 8), ("title", .str "T2"),
        ("variants", .arr [.obj [("available", .bool true)],
                           .obj [("available", .bool false)]])]

def no_variant_prod : Json := .obj [("id", .num 9)]

/-- C7 counterexample: for the product whose two variants are both
    unavailable — and likewise for the mixed and the variant-less product —
    the normalized output record carries no fully_out_of_stock and no
    partially_out_of_stock key at all: the spider never computes
    availability flags from the variants. -/
theorem no_availability_flags_on_oos_variants :
    ((build_item_dict demo_shop oos_prod none).map Prod.fst).contains
        "fully_out_of_stock" = false
    ∧ ((build_item_dict demo_shop oos_prod none).map Prod.fst).contains
        "partially_out_of_stock" = false
    ∧ ((build_item_dict demo_shop mixed_prod none).map Prod.fst).contains
        "fully_out_of_stock" = false
    ∧ ((build_item_dict demo_shop mixed_prod none).map Prod.fst).contains
        "partially_out_of_stock" = false
    ∧ ((build_item_dict demo_shop no_variant_prod none).map Prod.fst).contains
        "fully_out_of_stock" = false
    ∧ ((build_item_dict demo_shop no_variant_prod none).map Prod.fst).contains
        "partially_out_of_stock" = false :=
  ⟨rfl, rfl, rfl, rfl, rfl, rfl⟩

/-- C7 amended: every normalized output record carries exactly the fourteen
    keys the source assigns — source, product_id, url, title, description,
    variants, price, images, image_urls, tags, raw, currency,
    currency_source, price_with_currency — and in particular no availability
    flags: the variants are passed through raw, uninspected. -/
theorem normalized_output_keys (shop : String) (prod : Json)
    (cached : Option (String × String)) :
    (build_item_dict shop prod cached).map Prod.fst
      = ["source", "product_id", "url", "title", "description", "variants",
         "price", "images", "image_urls", "tags", "raw", "currency",
         "currency_source", "price_with_currency"]
    ∧ ((build_item_dict shop prod cached).map Prod.fst).contains
        "fully_out_of_stock" = false :=
  ⟨rfl, rfl⟩

/-- C8: whenever the direct structured-key scan succeeds, the whole cascade
    returns its code with the json_key source tag — also when a known
    currency symbol occurs in the serialized payload (rule 3 would match). -/
theorem cascade_structured_key_wins (data : Json) (c : String)
    (h1 : direct_key_scan data = some c)
    (_h3 : (SYMBOL_TO_CODE.findSome? fun sc =>
            if strContains (strTake (json_dumps data) 4000) sc.1
            then some sc.2 else none).isSome = true) :
    currency_from_json_shallow data = (some c, some "json_key") := by
  unfold currency_from_json_shallow
  rw [h1]

/-- C8 witness: the payload with currency_code set to PKR-detail matches the
    key scan (code PKR) and the symbol scan, and the cascade answers
    (PKR, json_key). -/
theorem cascade_structured_key_wins_witness :
    direct_key_scan (Json.obj [("currency_code", Json.str "PKR-detail")]) = some "PKR"
    ∧ (SYMBOL_TO_CODE.findSome? fun sc =>
        if strContains (strTake (json_dumps (Json.obj [("currency_code",
             Json.str "PKR-detail")])) 4000) sc.1
        then some sc.2 else none) = some "PKR"
    ∧ currency_from_json_shallow (Json.obj [("currency_code", Json.str "PKR-detail")])
        = (some "PKR", some "json_key") :=
  ⟨rfl, rfl, cascade_structured_key_wins _ _ rfl rfl⟩

/-- C9 counterexample: the per-shop summary line reports only items, saved
    and failed — it contains no pages_crawled field. -/
theorem summary_line_lacks_pages_crawled :
    summary_line "demo.myshopify.com" ⟨2, 1, 1⟩
      = "demo.myshopify.com: items=2, saved=1, failed=1\n"
    ∧ strContains (summary_line "demo.myshopify.com" ⟨2, 1, 1⟩) "pages_crawled" = false :=
  ⟨rfl, rfl⟩

/-- C9 amended: the summary file holds a heading line and one line per shop,
    sorted by shop key, of the exact form shop: items=N, saved=N, failed=N;
    no pages-crawled counter exists or is reported. -/
theorem summary_file_format :
    summary_file [("b.shop", ⟨3, 2, 1⟩), ("a.shop", ⟨1, 1, 0⟩)]
      = "crawl summary per shop\na.shop: items=1, saved=1, failed=0\nb.shop: items=3, saved=2, failed=1\n" := rfl

/-- C10: when the catalog JSON payload yields a currency hit while the
    shop's header is not yet written, parse_products_json caches the pair,
    writes the header and then the note header_placeholder record through
    write_shop_item, before the page's products; the placeholder bumps the
    items and saved counters, which therefore exceed the number of product
    records written by one. -/
theorem early_json_currency_placeholder (st : SpiderState) (sh : String)
    (f : Filters) (r : CatalogResponse) (now : String) (data : Json) (c s : String)
    (hs : r.status = 200)
    (hct : strContains r.content_type "application/json" = true)
    (hb : r.body = some data)
    (hw : st.header_written sh = false)
    (hdet : currency_from_json_shallow data = (some c, some s)) :
    (parse_products_json st sh f r now).1.streams sh
      = st.streams sh
        ++ header_rec sh (some c) (some s) now :: placeholder_rec
            :: ((products_of data).filter (fun p => product_matches_filters p f)).map
                 (fun p => build_item_dict sh p (some (c, s)))
    ∧ ((parse_products_json st sh f r now).1.stats sh).items
        = (st.stats sh).items
          + ((products_of data).filter (fun p => product_matches_filters p f)).length + 1
    ∧ ((parse_products_json st sh f r now).1.stats sh).saved
        = (st.stats sh).saved
          + ((products_of data).filter (fun p => product_matches_filters p f)).length + 1 := by
  unfold parse_products_json
  rw [if_neg (by rw [hs]; simp), if_neg (by rw [hs]; simp),
      if_pos (by rw [hct]; simp), hb]
  simp only [hdet, Option.getD_some]
  rw [if_neg (by simp [hw])]
  set stA : SpiderState :=
    { st with shop_currency := upd st.shop_currency sh (some (c, s)) } with hstA
  set stB := write_shop_item stA placeholder_rec sh now with hstB
  have hwA : stA.header_written sh = false := hw
  have hcurA : stA.shop_currency sh = some (c, s) := by
    rw [hstA]
    dsimp only
    rw [upd_self]
  have hwB : stB.header_written sh = true := by
    rw [hstB, wsi_header_written_false stA _ sh now hwA, upd_self]
  have hstrB : stB.streams sh
      = st.streams sh ++ [header_rec sh (some c) (some s) now, placeholder_rec] := by
    rw [hstB, wsi_streams_false stA _ sh now hwA, upd_self, hcurA]
    rfl
  have hstaB : stB.stats sh = bump_saved (st.stats sh) := by
    rw [hstB, wsi_stats, upd_self]
  have hcurB : stB.shop_currency sh = some (c, s) := by
    rw [hstB, wsi_shop_currency]
    exact hcurA
  obtain ⟨e1, e2, e3, _, _, _⟩ :=
    prod_loop_effect sh f now (products_of data) stB [] hwB
  refine ⟨?_, ?_, ?_⟩
  · rw [e1, hstrB, hcurB]
    simp [List.append_assoc]
  · rw [e2, hstaB]
    simp [bump_saved]
    omega
  · rw [e3, hstaB]
    simp [bump_saved]
    omega

def early_currency_page : CatalogResponse :=
  { status := 200, content_type := "application/json",
    url := "https://demo.myshopify.com/products.json?limit=250",
    body := some (.obj [("currency", .str "USD"),
                        ("products", .arr [.obj [("id", .num 1)]])]),
    hrefs := [] }

/-- C10 witness: from a fresh state, the page carrying a currency key and one
    product produces the stream header, placeholder, product — and counters
    items = saved = 2 for a single real product. -/
theorem early_json_currency_placeholder_witness :
    init_state.header_written demo_shop = false
    ∧ currency_from_json_shallow (Json.obj [("currency", Json.str "USD"),
        ("products", Json.arr [Json.obj [("id", Json.num 1)]])])
        = (some "USD", some "json_key")
    ∧ (parse_products_json init_state demo_shop no_filters early_currency_page "t").1.streams
        demo_shop
      = init_state.streams demo_shop
        ++ header_rec demo_shop (some "USD") (some "json_key") "t" :: placeholder_rec
            :: ((products_of (Json.obj [("currency", Json.str "USD"),
                  ("products", Json.arr [Json.obj [("id", Json.num 1)]])])).filter
                 (fun p => product_matches_filters p no_filters)).map
                 (fun p => build_item_dict demo_shop p (some ("USD", "json_key")))
    ∧ ((parse_products_json init_state demo_shop no_filters early_currency_page "t").1.stats
        demo_shop).items
      = (init_state.stats demo_shop).items
        + ((products_of (Json.obj [("currency", Json.str "USD"),
             ("products", Json.arr [Json.obj [("id", Json.num 1)]])])).filter
            (fun p => product_matches_filters p no_filters)).length + 1 :=
  ⟨rfl, rfl,
   (early_json_currency_placeholder init_state demo_shop no_filters early_currency_page
      "t" _ "USD" "json_key" rfl rfl rfl rfl rfl).1,
   (early_json_currency_placeholder init_state demo_shop no_filters early_currency_page
      "t" _ "USD" "json_key" rfl rfl rfl rfl rfl).2.1⟩

def probe_first_run : SpiderState :=
  run_events [.currency_resp demo_shop blank_probe "t0",
              .catalog_resp demo_shop no_filters pkr_page "t1"]

/-- C10 counterexample: the blank probe response arrives first and writes the
    header (null fields); no product record exists and no currency is cached
    yet. The catalog page then yields the shop's first currency detection,
    (PKR, json_key), from its JSON payload — but since the guard is
    header-based, no header_placeholder record is written: the stream is the
    null header followed by the single product record, and items/saved count
    exactly that one product, with no overcount. -/
theorem no_placeholder_after_probe_header :
    (run_events [.currency_resp demo_shop blank_probe "t0"]).shop_currency demo_shop = none
    ∧ ((run_events [.currency_resp demo_shop blank_probe "t0"]).streams demo_shop).filterMap
        (List.lookup "product_id") = []
    ∧ probe_first_run.shop_currency demo_shop = some ("PKR", "json_key")
    ∧ (probe_first_run.streams demo_shop).filterMap (List.lookup "note") = []
    ∧ (probe_first_run.streams demo_shop).filterMap (List.lookup "product_id") = [Json.num 1]
    ∧ probe_first_run.stats demo_shop = ⟨1, 1, 0⟩ :=
  ⟨rfl, rfl, rfl, rfl, rfl, rfl⟩
